import Mathlib

/-!
# X-Bot persistence and deduplication layer: a shallow embedding

This file embeds the persistence layer of the X-Bot repository
(`database.py`) into Lean 4 and proves properties of it.

Modelling conventions:
* The relational store is a `DB` structure holding the three content tables
  as lists of rows (`campaigns`, `tweets`, `scraped`), in insertion order.
* `datetime` values are modelled as `Nat` ticks supplied by the caller
  (`now`); ISO-8601 timestamp strings are kept as `String` and parsed by
  `fromisoformat?`.
* JSON column values (`analysis_summary`, tag lists) are modelled by the
  `JValue` inductive, with Python truthiness / indexing / `len` semantics
  made explicit as `Except`-returning helpers, so that the `try/except`
  blocks of the source can be modelled faithfully.
* A storage-layer exception inside a `try:` block is modelled by a `fault`
  Boolean argument: when `fault = true` the function takes the `except`
  path of the source.
-/

namespace XBot

/-- JSON-like value, the model of Python objects stored in `JSON` columns
(`analysis_summary`, `coophive_elements`, `discord_voice_patterns`). -/
inductive JValue where
  | null : JValue
  | bool : Bool → JValue
  | num : Int → JValue
  | str : String → JValue
  | arr : List JValue → JValue
  | obj : List (String × JValue) → JValue
deriving Repr, BEq

/-- Row of the `campaigns` table (class `Campaign` in `database.py`). -/
structure Campaign where
  campaign_batch : String
  generated_at : String
  tweet_count : Nat
  analysis_summary : JValue
  title : String
  description : String
  source_type : String
  display_name : String
  created_at : Nat
  updated_at : Nat
deriving Repr

/-- Row of the `tweets` table (class `Tweet` in `database.py`). -/
structure Tweet where
  id : String
  campaign_batch : String
  type : String
  content : String
  character_count : Int
  status : String
  engagement_hook : String
  coophive_elements : JValue
  discord_voice_patterns : JValue
  theme_connection : String
  is_edited : Bool
  last_modified : Nat
  posted_date : Option Nat
  created_at : Nat
deriving Repr

/-- Row of the `scraped_tweets` table (class `ScrapedTweet` in
`database.py`). -/
structure ScrapedTweet where
  tweet_id : String
  url : String
  content : String
  likes : Int
  retweets : Int
  replies : Int
  quotes : Int
  views : Int
  date : Option Nat
  status : String
  tweet_url : String
  execution_id : Option String
  source_url : Option String
  created_at : Nat
  updated_at : Nat
deriving Repr

/-- The relational store: the three content tables, rows in insertion
order. (The `database_version` table is modelled separately, see `MigDB`,
since the migration runner manipulates schema-level state the content
operations never touch.) -/
structure DB where
  campaigns : List Campaign
  tweets : List Tweet
  scraped : List ScrapedTweet
deriving Repr

/-- Python set insertion (`set.add`): membership-deduplicated list. -/
def setInsert (s : List String) (x : String) : List String :=
  if s.contains x then s else s ++ [x]

/-- Python `set.update`: fold insertion over the added elements. -/
def setUnion (s : List String) (t : List String) : List String :=
  t.foldl setInsert s

/-- Python truthiness of an optional string (`if execution_id:`):
`None` and the empty string are falsy. -/
def optTruthy : Option String → Bool
  | none => false
  | some s => s != ""

/-- `check_duplicate_scraped_tweets(tweet_ids, execution_id)` from
`database.py`.

STEP 1: if `execution_id` is truthy, every stored `scraped_tweets` row
whose `execution_id` column equals it contributes its `tweet_id` to the
duplicate set. STEP 2: every stored row whose `tweet_id` is among the
candidates contributes its `tweet_id`. `new_ids` is the candidate list
filtered to ids not in the duplicate set; `existing_ids` is returned as a
list of the duplicate set. The surrounding `try/except` returns
`([], tweet_ids)` on any storage fault (`fault = true`). -/
def check_duplicate_scraped_tweets (db : DB) (fault : Bool)
    (tweet_ids : List String) (execution_id : Option String) :
    List String × List String :=
  if fault then
    ([], tweet_ids)
  else
    let execution_duplicate_ids : List String :=
      if optTruthy execution_id then
        setUnion []
          ((db.scraped.filter (fun r => r.execution_id == execution_id)).map
            (fun r => r.tweet_id))
      else []
    let existing₁ := setUnion [] execution_duplicate_ids
    let tweet_duplicate_ids : List String :=
      setUnion []
        ((db.scraped.filter (fun r => tweet_ids.contains r.tweet_id)).map
          (fun r => r.tweet_id))
    let existing_ids := setUnion existing₁ tweet_duplicate_ids
    let new_ids := tweet_ids.filter (fun tid => !(existing_ids.contains tid))
    (existing_ids, new_ids)

theorem mem_setInsert (s : List String) (x y : String) :
    y ∈ setInsert s x ↔ y ∈ s ∨ y = x := by
  by_cases h : x ∈ s
  · have hs : setInsert s x = s := by simp [setInsert, h]
    rw [hs]
    constructor
    · exact Or.inl
    · rintro (hy | rfl)
      · exact hy
      · exact h
  · have hs : setInsert s x = s ++ [x] := by simp [setInsert, h]
    rw [hs]
    simp

theorem mem_setUnion (s t : List String) (y : String) :
    y ∈ setUnion s t ↔ y ∈ s ∨ y ∈ t := by
  induction t generalizing s with
  | nil => simp [setUnion]
  | cons a t ih =>
    show y ∈ setUnion (setInsert s a) t ↔ _
    rw [ih, mem_setInsert]
    simp [or_assoc, or_comm, or_left_comm]

/-- Characterization of the `existing_ids` component of the duplicate
check on a reachable store: an id is reported as existing iff it is the
stored id of a row tagged with the (truthy) execution id, or a stored id
that is itself among the candidates. -/
theorem mem_existing_iff (db : DB) (cands : List String) (eo : Option String)
    (x : String) :
    x ∈ (check_duplicate_scraped_tweets db false cands eo).1 ↔
      ((optTruthy eo = true ∧ ∃ r ∈ db.scraped, r.execution_id = eo ∧ r.tweet_id = x)
        ∨ (x ∈ cands ∧ ∃ r ∈ db.scraped, r.tweet_id = x)) := by
  by_cases ht : optTruthy eo = true
  · simp only [check_duplicate_scraped_tweets, Bool.false_eq_true, if_false, ht,
      if_true, mem_setUnion, List.not_mem_nil, false_or, List.mem_map,
      List.mem_filter, true_and]
    constructor
    · rintro (⟨r, ⟨hr, hre⟩, rfl⟩ | ⟨r, ⟨hr, hrc⟩, rfl⟩)
      · exact Or.inl ⟨r, hr, by simpa using hre, rfl⟩
      · exact Or.inr ⟨by simpa using hrc, r, hr, rfl⟩
    · rintro (⟨r, hr, hre, rfl⟩ | ⟨hx, r, hr, rfl⟩)
      · exact Or.inl ⟨r, ⟨hr, by simpa using hre⟩, rfl⟩
      · exact Or.inr ⟨r, ⟨hr, by simpa using hx⟩, rfl⟩
  · simp only [check_duplicate_scraped_tweets, Bool.false_eq_true, if_false, ht,
      mem_setUnion, List.not_mem_nil, false_or, false_and, List.mem_map,
      List.mem_filter]
    constructor
    · rintro ⟨r, ⟨hr, hrc⟩, rfl⟩
      exact ⟨by simpa using hrc, r, hr, rfl⟩
    · rintro ⟨hx, r, hr, rfl⟩
      exact ⟨r, ⟨hr, by simpa using hx⟩, rfl⟩

/-- The `new_ids` component is literally the candidate list filtered on
non-membership in `existing_ids`. -/
theorem new_ids_eq_filter (db : DB) (cands : List String) (eo : Option String) :
    (check_duplicate_scraped_tweets db false cands eo).2
      = cands.filter
          (fun tid => !((check_duplicate_scraped_tweets db false cands eo).1.contains tid)) :=
  rfl

/-- Every id the duplicate check reports as existing is the stored id of
some scraped row. -/
theorem existing_mem_stored (db : DB) (cands : List String) (eo : Option String)
    (x : String)
    (hx : x ∈ (check_duplicate_scraped_tweets db false cands eo).1) :
    ∃ r ∈ db.scraped, r.tweet_id = x := by
  rcases (mem_existing_iff db cands eo x).mp hx with ⟨_, r, hr, _, rfl⟩ | ⟨_, r, hr, rfl⟩
  · exact ⟨r, hr, rfl⟩
  · exact ⟨r, hr, rfl⟩

/-- A sample scraped row used in concrete evaluations. -/
def sampleScraped (tid : String) (eid : Option String) : ScrapedTweet :=
  { tweet_id := tid, url := "", content := "", likes := 0, retweets := 0,
    replies := 0, quotes := 0, views := 0, date := none, status := "success",
    tweet_url := "", execution_id := eid, source_url := none,
    created_at := 0, updated_at := 0 }

/-- A store holding exactly one scraped row `s1` tagged execution id `E1`. -/
def dbS1 : DB :=
  { campaigns := [], tweets := [], scraped := [sampleScraped "s1" (some "E1")] }

/-- C7: on a storage-layer fault, `check_duplicate_scraped_tweets` degrades
to treating every candidate as new: it returns `([], tweet_ids)` instead of
propagating the fault. -/
theorem check_duplicates_fault_all_new (db : DB) (tweet_ids : List String)
    (execution_id : Option String) :
    check_duplicate_scraped_tweets db true tweet_ids execution_id
      = ([], tweet_ids) := rfl

/-- C1, counterexample to the claim as stated: the store `dbS1` holds one
scraped row with execution id `E1`, and the candidate list `["c1"]` is
disjoint from the stored content ids; the claim says every candidate is
flagged as existing with `new_ids` empty, but the code returns the
candidate in `new_ids` and not in `existing_ids`. -/
theorem check_duplicates_batch_match_cex :
    (check_duplicate_scraped_tweets dbS1 false ["c1"] (some "E1")).2 = ["c1"]
      ∧ "c1" ∉ (check_duplicate_scraped_tweets dbS1 false ["c1"] (some "E1")).1 := by
  decide

/-- C1 (amended): for a store holding at least one scraped row tagged with
execution id `E`, and a candidate list disjoint from the stored content
ids, the batch match puts every stored `E`-tagged id into `existing_ids`,
but no candidate is flagged: `new_ids` is the full candidate list. -/
theorem check_duplicates_batch_match_amended (db : DB)
    (cands : List String) (e : String) (he : e ≠ "")
    (_hmatch : ∃ r ∈ db.scraped, r.execution_id = some e)
    (hdisj : ∀ c ∈ cands, ∀ r ∈ db.scraped, c ≠ r.tweet_id) :
    (∀ r ∈ db.scraped, r.execution_id = some e →
        r.tweet_id ∈ (check_duplicate_scraped_tweets db false cands (some e)).1)
      ∧ (check_duplicate_scraped_tweets db false cands (some e)).2 = cands := by
  have htruthy : optTruthy (some e) = true := by simp [optTruthy, he]
  constructor
  · intro r hr hre
    exact (mem_existing_iff db cands (some e) r.tweet_id).mpr
      (Or.inl ⟨htruthy, r, hr, hre, rfl⟩)
  · rw [new_ids_eq_filter]
    apply List.filter_eq_self.mpr
    intro c hc
    simp only [Bool.not_eq_true', ← Bool.not_eq_true]
    intro hcontains
    have hmem : c ∈ (check_duplicate_scraped_tweets db false cands (some e)).1 := by
      simpa using hcontains
    obtain ⟨r, hr, hrid⟩ := existing_mem_stored db cands (some e) c hmem
    exact hdisj c hc r hr hrid.symm

/-- Witness for the amended C1 theorem at the concrete store `dbS1`. -/
theorem check_duplicates_batch_match_amended_witness :
    (check_duplicate_scraped_tweets dbS1 false ["c1"] (some "E1")).2 = ["c1"]
      ∧ "s1" ∈ (check_duplicate_scraped_tweets dbS1 false ["c1"] (some "E1")).1 := by
  have h := check_duplicates_batch_match_amended dbS1 ["c1"] "E1" (by decide)
    ⟨sampleScraped "s1" (some "E1"), List.mem_cons_self _ _, rfl⟩ (by decide)
  exact ⟨h.2, h.1 (sampleScraped "s1" (some "E1")) (List.mem_cons_self _ _) rfl⟩

/-- C9: when a (truthy) execution id is supplied on a reachable store,
every stored id tagged with that execution id appears in `existing_ids`
(whether or not it is a candidate), `new_ids` is the complement of
`existing_ids` within the candidate list, and `existing_ids` is not in
general a subset of the candidate list. -/
theorem check_duplicates_existing_beyond_candidates :
    (∀ (db : DB) (cands : List String) (e : String), e ≠ "" →
      (∀ r ∈ db.scraped, r.execution_id = some e →
          r.tweet_id ∈ (check_duplicate_scraped_tweets db false cands (some e)).1)
        ∧ (check_duplicate_scraped_tweets db false cands (some e)).2
            = cands.filter
                (fun tid =>
                  !((check_duplicate_scraped_tweets db false cands (some e)).1.contains tid)))
      ∧ (∃ (db : DB) (cands : List String) (e x : String),
          x ∈ (check_duplicate_scraped_tweets db false cands (some e)).1
            ∧ x ∉ cands) := by
  constructor
  · intro db cands e he
    have htruthy : optTruthy (some e) = true := by simp [optTruthy, he]
    refine ⟨?_, new_ids_eq_filter db cands (some e)⟩
    intro r hr hre
    exact (mem_existing_iff db cands (some e) r.tweet_id).mpr
      (Or.inl ⟨htruthy, r, hr, hre, rfl⟩)
  · exact ⟨dbS1, [], "E1", "s1", by decide, by decide⟩

/-- Witness discharging the hypothesis of the C9 theorem's universal part
at a concrete input. -/
theorem check_duplicates_existing_beyond_candidates_witness :
    "s1" ∈ (check_duplicate_scraped_tweets dbS1 false ["c1"] (some "E1")).1 :=
  (check_duplicates_existing_beyond_candidates.1 dbS1 ["c1"] "E1"
    (by decide)).1 (sampleScraped "s1" (some "E1")) (List.mem_cons_self _ _) rfl

/-- `session.query(Campaign).filter_by(campaign_batch=b).first()` is not
`None`. -/
def campaignExists (db : DB) (batch : String) : Bool :=
  db.campaigns.any (fun c => c.campaign_batch == batch)

/-- `session.query(Tweet).filter_by(id=tid).first()` is not `None`. -/
def tweetExists (db : DB) (tid : String) : Bool :=
  db.tweets.any (fun t => t.id == tid)

/-- The bounded probe loop shared by both resolvers: try suffixes `-v2`
through `-v99` in order and return the first candidate the `occupied`
lookup reports free; `none` when all 98 candidates collide. -/
def findFreeCandidate (occupied : String → Bool) (orig : String) : Option String :=
  (List.range 98).findSome? (fun i =>
    let candidate := orig ++ "-v" ++ toString (i + 2)
    if occupied candidate then none else some candidate)

/-- `get_unique_campaign_batch(original_batch)` from `database.py`. `ts`
models `datetime.now().strftime("%H%M%S")`, the time-of-day fallback
suffix; `fault = true` models a storage exception inside the `try:` block,
whose handler returns the original id unchanged. -/
def get_unique_campaign_batch (db : DB) (fault : Bool) (ts : String)
    (original_batch : String) : String :=
  if fault then original_batch
  else if !(campaignExists db original_batch) then original_batch
  else
    match findFreeCandidate (campaignExists db) original_batch with
    | some candidate => candidate
    | none => original_batch ++ "-" ++ ts

/-- `get_unique_tweet_id(original_id, campaign_batch)` from `database.py`.
The existence check is global over all tweets; the owning campaign batch
is used only in the final fallback name. `fault = true` models a storage
exception, whose handler returns the original id unchanged. -/
def get_unique_tweet_id (db : DB) (fault : Bool) (original_id : String)
    (campaign_batch : String) : String :=
  if fault then original_id
  else if !(tweetExists db original_id) then original_id
  else
    match findFreeCandidate (tweetExists db) original_id with
    | some candidate => candidate
    | none =>
      let base_id :=
        if original_id.contains '-' then
          (original_id.splitOn "-").getLastD original_id
        else original_id
      campaign_batch ++ "-" ++ base_id

/-- A candidate returned by the probe loop is free. -/
theorem findFreeCandidate_free (occupied : String → Bool) (orig c : String)
    (h : findFreeCandidate occupied orig = some c) : occupied c = false := by
  obtain ⟨i, _, hf⟩ := List.exists_of_findSome?_eq_some h
  by_cases ho : occupied (orig ++ "-v" ++ toString (i + 2)) = true
  · simp [ho] at hf
  · simp only [Bool.not_eq_true] at ho
    simp only [ho, Bool.false_eq_true, if_false, Option.some.injEq] at hf
    rw [← hf]
    exact ho

/-- A sample campaign row with the given batch id. -/
def sampleCampaign (batch : String) : Campaign :=
  { campaign_batch := batch, generated_at := "2025-01-15T10:00:00",
    tweet_count := 0, analysis_summary := JValue.obj [], title := "",
    description := "", source_type := "api", display_name := "",
    created_at := 0, updated_at := 0 }

/-- A sample tweet row with the given id and owning batch. -/
def sampleTweet (tid batch : String) : Tweet :=
  { id := tid, campaign_batch := batch, type := "single", content := "hi",
    character_count := 2, status := "Draft", engagement_hook := "",
    coophive_elements := JValue.arr [], discord_voice_patterns := JValue.arr [],
    theme_connection := "", is_edited := false, last_modified := 0,
    posted_date := none, created_at := 0 }

/-- A store holding campaign `batch-001` and tweet `t1` in it. -/
def dbC1 : DB :=
  { campaigns := [sampleCampaign "batch-001"],
    tweets := [sampleTweet "t1" "batch-001"], scraped := [] }

/-- Like `dbC1`, but tweet `t1` already carries a posted timestamp. -/
def dbC1post : DB :=
  { campaigns := [sampleCampaign "batch-001"],
    tweets := [{ sampleTweet "t1" "batch-001" with
                   status := "Posted", posted_date := some 5 }],
    scraped := [] }

/-- C10: under a lookup fault both resolvers return the desired identifier
unchanged — including when it collides (concrete colliding instances
below) — whereas on a reachable store the returned identifier is free
unless the bounded probe is exhausted and the unchecked fallback name is
taken. -/
theorem resolvers_fault_return_original :
    (∀ (db : DB) (ts orig : String),
        get_unique_campaign_batch db true ts orig = orig)
    ∧ (∀ (db : DB) (orig batch : String),
        get_unique_tweet_id db true orig batch = orig)
    ∧ (campaignExists dbC1 "batch-001" = true
        ∧ get_unique_campaign_batch dbC1 true "120000" "batch-001" = "batch-001")
    ∧ (tweetExists dbC1 "t1" = true
        ∧ get_unique_tweet_id dbC1 true "t1" "batch-001" = "t1")
    ∧ (∀ (db : DB) (ts orig : String),
        campaignExists db (get_unique_campaign_batch db false ts orig) = false
          ∨ get_unique_campaign_batch db false ts orig = orig ++ "-" ++ ts)
    ∧ (∀ (db : DB) (orig batch : String),
        tweetExists db (get_unique_tweet_id db false orig batch) = false
          ∨ ∃ base, get_unique_tweet_id db false orig batch
              = batch ++ "-" ++ base) := by
  refine ⟨fun _ _ _ => rfl, fun _ _ _ => rfl, ⟨by decide, rfl⟩, ⟨by decide, rfl⟩,
    ?_, ?_⟩
  · intro db ts orig
    unfold get_unique_campaign_batch
    simp only [Bool.false_eq_true, if_false]
    by_cases hex : campaignExists db orig = true
    · simp only [hex, Bool.not_true, Bool.false_eq_true, if_false]
      cases hf : findFreeCandidate (campaignExists db) orig with
      | none => exact Or.inr rfl
      | some c => exact Or.inl (findFreeCandidate_free _ _ _ hf)
    · simp only [Bool.not_eq_true] at hex
      simp only [hex, Bool.not_false, if_true, eq_self_iff_true, true_or]
  · intro db orig batch
    unfold get_unique_tweet_id
    simp only [Bool.false_eq_true, if_false]
    by_cases hex : tweetExists db orig = true
    · simp only [hex, Bool.not_true, Bool.false_eq_true, if_false]
      cases hf : findFreeCandidate (tweetExists db) orig with
      | none => exact Or.inr ⟨_, rfl⟩
      | some c => exact Or.inl (findFreeCandidate_free _ _ _ hf)
    · simp only [Bool.not_eq_true] at hex
      simp only [hex, Bool.not_false, if_true, eq_self_iff_true, true_or]

/-- Python truthiness of a JSON value (`if not dominant_themes:`). -/
def JValue.truthy : JValue → Bool
  | .null => false
  | .bool b => b
  | .num n => n != 0
  | .str s => s != ""
  | .arr xs => !xs.isEmpty
  | .obj kvs => !kvs.isEmpty

/-- `v.get(key, default)` on a Python value: defined only on a dict; any
other receiver raises `AttributeError` (modelled as `error`). -/
def pyGet (v : JValue) (key : String) (default : JValue) :
    Except Unit JValue :=
  match v with
  | .obj kvs =>
    .ok (((kvs.find? (fun kv => kv.1 == key)).map (fun kv => kv.2)).getD default)
  | _ => .error ()

/-- Python `len(v)`: defined on strings, lists and dicts; raises
`TypeError` otherwise. -/
def pyLen : JValue → Except Unit Nat
  | .str s => .ok s.length
  | .arr xs => .ok xs.length
  | .obj kvs => .ok kvs.length
  | _ => .error ()

/-- Python `v[i]` with an integer index: element of a list, one-character
string of a string; a dict raises `KeyError` (its keys are strings), any
other receiver raises `TypeError`. -/
def pyIndex : JValue → Nat → Except Unit JValue
  | .arr xs, i =>
    match xs.get? i with
    | some x => .ok x
    | none => .error ()
  | .str s, i =>
    match s.toList.get? i with
    | some c => .ok (.str (String.mk [c]))
    | none => .error ()
  | _, _ => .error ()

/-- A single-quote character, for Python `repr` of strings. -/
def squote : String := String.singleton (Char.ofNat 39)

mutual

/-- Python `repr(v)` of a JSON value (used for elements nested inside a
container rendered by `str`), with its two container helpers. -/
def pyRepr : JValue → String
  | .null => "None"
  | .bool b => if b then "True" else "False"
  | .num n => toString n
  | .str s => squote ++ s ++ squote
  | .arr xs => "[" ++ String.intercalate ", " (pyReprList xs) ++ "]"
  | .obj kvs =>
    "\x7b" ++ String.intercalate ", " (pyReprObj kvs) ++ "\x7d"

def pyReprList : List JValue → List String
  | [] => []
  | x :: xs => pyRepr x :: pyReprList xs

def pyReprObj : List (String × JValue) → List String
  | [] => []
  | (k, v) :: kvs =>
    (squote ++ k ++ squote ++ ": " ++ pyRepr v) :: pyReprObj kvs

end

/-- Python `str(v)` as applied by an f-string conversion: a string renders
as itself, everything else as its `repr`. -/
def pyFmt : JValue → String
  | .str s => s
  | v => pyRepr v

/-- A Python `datetime` as produced by `datetime.fromisoformat`. -/
structure PyDateTime where
  year : Nat
  month : Nat
  day : Nat
  hour : Nat
  minute : Nat
  second : Nat
deriving Repr, DecidableEq

/-- Decimal digit value of a character. -/
def digit? (c : Char) : Option Nat :=
  if c.isDigit then some (c.toNat - 48) else none

/-- Two-digit decimal number. -/
def num2? (a b : Char) : Option Nat := do
  let x ← digit? a
  let y ← digit? b
  pure (10 * x + y)

/-- Days in a month of the proleptic Gregorian calendar. -/
def daysInMonth (year month : Nat) : Nat :=
  if month = 2 then
    if year % 4 = 0 ∧ (year % 100 ≠ 0 ∨ year % 400 = 0) then 29 else 28
  else if month = 4 ∨ month = 6 ∨ month = 9 ∨ month = 11 then 30
  else 31

/-- Leading run of decimal digits of a character list, and the rest. -/
def splitDigits : List Char → List Char × List Char
  | [] => ([], [])
  | c :: cs =>
    if c.isDigit then
      let (d, r) := splitDigits cs
      (c :: d, r)
    else ([], c :: cs)

/-- A valid ISO-8601 UTC-offset tail (`+HH:MM` or `-HH:MM`), or nothing. -/
def offsetOk : List Char → Bool
  | [] => true
  | [c, h1, h2, col, m1, m2] =>
    (c == '+' || c == '-') && (col == ':')
      && (num2? h1 h2).isSome && (num2? m1 m2).isSome
  | _ => false

/-- What may follow the seconds field: nothing, an offset, or a
fractional-seconds field of 3 or 6 digits followed by an optional offset
(the pre-3.11 `fromisoformat` grammar). -/
def isoTailOk : List Char → Bool
  | [] => true
  | c :: rest =>
    if c == ('.' : Char) then
      let (ds, r) := splitDigits rest
      (ds.length == 3 || ds.length == 6) && offsetOk r
    else offsetOk (c :: rest)

/-- `HH:MM:SS` plus a valid tail. -/
def parseTime? : List Char → Option (Nat × Nat × Nat)
  | h1 :: h2 :: c1 :: m1 :: m2 :: c2 :: s1 :: s2 :: rest =>
    if c1 == (':' : Char) && c2 == (':' : Char) then do
      let h ← num2? h1 h2
      let mi ← num2? m1 m2
      let sec ← num2? s1 s2
      if h ≤ 23 ∧ mi ≤ 59 ∧ sec ≤ 59 ∧ isoTailOk rest = true then
        pure (h, mi, sec)
      else none
    else none
  | _ => none

/-- Model of `datetime.fromisoformat` (Python ≤ 3.10 grammar):
`YYYY-MM-DD`, optionally followed by a one-character separator and
`HH:MM:SS` with an optional fractional/offset tail. Returns `none` where
the original raises `ValueError`. -/
def fromisoformat? (s : String) : Option PyDateTime :=
  match s.toList with
  | y1 :: y2 :: y3 :: y4 :: c1 :: m1 :: m2 :: c2 :: d1 :: d2 :: rest =>
    if c1 == ('-' : Char) && c2 == ('-' : Char) then do
      let a ← digit? y1
      let b ← digit? y2
      let c ← digit? y3
      let d ← digit? y4
      let year := 1000 * a + 100 * b + 10 * c + d
      let month ← num2? m1 m2
      let day ← num2? d1 d2
      if 1 ≤ year ∧ 1 ≤ month ∧ month ≤ 12 ∧ 1 ≤ day ∧ day ≤ daysInMonth year month then
        match rest with
        | [] => pure ⟨year, month, day, 0, 0, 0⟩
        | _ :: timePart => do
          let (h, mi, sec) ← parseTime? timePart
          pure ⟨year, month, day, h, mi, sec⟩
      else none
    else none
  | _ => none

/-- English month abbreviations, as `strftime("%b")` renders them in the
C locale. -/
def monthAbbr : Nat → String
  | 1 => "Jan"
  | 2 => "Feb"
  | 3 => "Mar"
  | 4 => "Apr"
  | 5 => "May"
  | 6 => "Jun"
  | 7 => "Jul"
  | 8 => "Aug"
  | 9 => "Sep"
  | 10 => "Oct"
  | 11 => "Nov"
  | 12 => "Dec"
  | _ => ""

/-- Zero-padded two-digit rendering (`strftime("%d")`). -/
def pad2 (n : Nat) : String :=
  if n < 10 then "0" ++ toString n else toString n

/-- `date_obj.strftime("%b %d")`. -/
def strftimeBD (d : PyDateTime) : String :=
  monthAbbr d.month ++ " " ++ pad2 d.day

/-- One tweet dictionary inside the campaign JSON payload (interface shape
of `save_campaign_data`): keys `id`, `type`, `content`, `character_count`
are required; the remaining keys are optional (`none` = absent) and read
with `.get(key, default)`. -/
structure TweetData where
  id : String
  type : String
  content : String
  character_count : Int
  status : Option String
  engagement_hook : Option String
  coophive_elements : Option JValue
  discord_voice_patterns : Option JValue
  theme_connection : Option String
  is_edited : Option Bool
deriving Repr

/-- The campaign JSON payload passed to `save_campaign_data`. Keys
`campaign_batch` and `generated_at` are required (the code indexes them
directly); `analysis_summary`, `title`, `description` and `source_type`
are optional and read with `.get(key, default)`; `tweet_count` is the
declared hint the code never trusts. -/
structure CampaignPayload where
  campaign_batch : String
  generated_at : String
  tweet_count : Nat
  analysis_summary : Option JValue
  title : Option String
  description : Option String
  source_type : Option String
  tweets : List TweetData
deriving Repr

/-- Fuel-driven worker for `pyReplace`: replace leftmost non-overlapping
occurrences of `pat` (non-empty at every call site). -/
def pyReplaceAux (pat repl : List Char) : Nat → List Char → List Char
  | 0, cs => cs
  | _ + 1, [] => []
  | fuel + 1, c :: cs =>
    if pat.isPrefixOf (c :: cs) then
      repl ++ pyReplaceAux pat repl fuel (List.drop pat.length (c :: cs))
    else c :: pyReplaceAux pat repl fuel cs

/-- Python `s.replace(pat, repl)` for a non-empty pattern: replace every
leftmost non-overlapping occurrence (all call sites in the modelled code
pass non-empty literal patterns). -/
def pyReplace (s pat repl : String) : String :=
  String.mk (pyReplaceAux pat.toList repl.toList s.toList.length s.toList)

/-- The `date_str` computed by `generate_display_name`: `strftime("%b %d")`
of `fromisoformat(generated_at.replace("Z", "+00:00"))`, or the empty
string when the parse raises. -/
def campaignDateStr (cd : CampaignPayload) : String :=
  match fromisoformat? (pyReplace cd.generated_at "Z" "+00:00") with
  | some d => strftimeBD d
  | none => ""

/-- The `theme_part` computation of `generate_display_name` before the
boilerplate stripping: with two or more themes, an f-string join of the
first two (str-converting each element); with one, the raw first element,
which must be a string for the later `.replace` calls (anything else
raises `AttributeError`). -/
def themePart (dominant_themes : JValue) (n : Nat) : Except Unit String :=
  if n ≥ 2 then
    match pyIndex dominant_themes 0, pyIndex dominant_themes 1 with
    | .ok t0, .ok t1 => .ok (pyFmt t0 ++ " & " ++ pyFmt t1)
    | _, _ => .error ()
  else
    match pyIndex dominant_themes 0 with
    | .ok (JValue.str s) => .ok s
    | _ => .error ()

/-- The body of `generate_display_name`'s `try:` block, with Python
dynamic-typing faults surfaced as `error` (caught by the caller):
`.get` on a non-dict summary, `len`/indexing on a non-sized or
string-keyed themes value, `.replace` on a non-string single theme. -/
def displayNameCore (campaign_data : CampaignPayload) : Except Unit String :=
  match pyGet (campaign_data.analysis_summary.getD (JValue.obj []))
      "dominant_themes" (JValue.arr []) with
  | .error e => .error e
  | .ok dominant_themes =>
    let tweet_count := campaign_data.tweets.length
    let date_str := campaignDateStr campaign_data
    if dominant_themes.truthy = false then
      .ok (if date_str != "" then
        "Content Batch - " ++ date_str ++ " ("
          ++ toString tweet_count ++ " tweets)"
      else "Content Batch (" ++ toString tweet_count ++ " tweets)")
    else
      match pyLen dominant_themes with
      | .error e => .error e
      | .ok n =>
        match themePart dominant_themes n with
        | .error e => .error e
        | .ok part =>
          let theme_part :=
            pyReplace (pyReplace (pyReplace part "AI/ML " "AI ")
              " Technology" "") " Community" ""
          .ok (if date_str != "" then
            theme_part ++ " - " ++ date_str ++ " ("
              ++ toString tweet_count ++ " tweets)"
          else theme_part ++ " (" ++ toString tweet_count ++ " tweets)")

/-- `generate_display_name(campaign_data)` from `database.py`: the
`try:` body above, with the `except:` handler returning the bare
tweet-count fallback label. -/
def generate_display_name (campaign_data : CampaignPayload) : String :=
  match displayNameCore campaign_data with
  | Except.ok s => s
  | Except.error _ =>
    "Campaign (" ++ toString campaign_data.tweets.length ++ " tweets)"

/-- Boolean no-duplicates check on a list of ids. -/
def listNodup : List String → Bool
  | [] => true
  | x :: xs => !(xs.contains x) && listNodup xs

/-- Result of `save_campaign_data`: the store after the call, the returned
success flag, and the payload dictionary as mutated in place by the
collision-resolution loop. -/
structure SaveResult where
  db : DB
  ok : Bool
  data : CampaignPayload
deriving Repr

/-- The in-place mutation phase of `save_campaign_data`: the campaign
batch id is replaced by its collision-resolved value, and every tweet id
by its collision-resolved value (each lookup opens its own session
against the committed store, so resolutions do not see one another). -/
def save_resolved_payload (db : DB) (fault : Bool) (ts : String)
    (cd : CampaignPayload) : CampaignPayload :=
  let unique_campaign_batch := get_unique_campaign_batch db fault ts cd.campaign_batch
  { cd with
      campaign_batch := unique_campaign_batch,
      tweets := cd.tweets.map (fun t =>
        { t with id := get_unique_tweet_id db fault t.id unique_campaign_batch }) }

/-- The `Campaign(...)` row `save_campaign_data` adds: `tweet_count` is
the actual length of the tweet list, and the display name is derived from
the payload as it stands after the batch-id mutation (before tweet-id
rewriting, which cannot affect it). -/
def save_campaign_row (db : DB) (fault : Bool) (ts : String) (now : Nat)
    (cd : CampaignPayload) : Campaign :=
  let campaign_data := save_resolved_payload db fault ts cd
  { campaign_batch := campaign_data.campaign_batch,
    generated_at := campaign_data.generated_at,
    tweet_count := campaign_data.tweets.length,
    analysis_summary := campaign_data.analysis_summary.getD (JValue.obj []),
    title := campaign_data.title.getD "",
    description := campaign_data.description.getD "",
    source_type := campaign_data.source_type.getD "api",
    display_name := generate_display_name
      { cd with campaign_batch := campaign_data.campaign_batch },
    created_at := now, updated_at := now }

/-- The `Tweet(...)` rows `save_campaign_data` adds, one per payload
tweet, each referencing the resolved batch id, with `.get` defaults for
the optional keys. -/
def save_tweet_rows (db : DB) (fault : Bool) (ts : String) (now : Nat)
    (cd : CampaignPayload) : List Tweet :=
  let campaign_data := save_resolved_payload db fault ts cd
  campaign_data.tweets.map (fun t =>
    { id := t.id, campaign_batch := campaign_data.campaign_batch,
      type := t.type, content := t.content,
      character_count := t.character_count,
      status := t.status.getD "Draft",
      engagement_hook := t.engagement_hook.getD "",
      coophive_elements := t.coophive_elements.getD (JValue.arr []),
      discord_voice_patterns := t.discord_voice_patterns.getD (JValue.arr []),
      theme_connection := t.theme_connection.getD "",
      is_edited := t.is_edited.getD false,
      last_modified := now, posted_date := none, created_at := now })

/-- `save_campaign_data(campaign_data)` from `database.py`.

Resolves the identifiers (mutating the payload in place), derives the
display name, builds the campaign row — `datetime.fromisoformat` on
`generated_at` raises on a malformed timestamp, rolling back — and the
tweet rows, adds them all to one session and commits. The commit raises
(rolling everything back, `ok = false`) iff a primary key collides: the
resolved campaign batch already stored, a resolved tweet id already
stored, or a duplicate tweet id within the inserted batch itself.
`ts` and `now` model `datetime.now().strftime("%H%M%S")` and
`datetime.utcnow()`; `fault` models a storage fault inside the resolvers'
sessions (`save`'s own session faults are the commit conflicts above). -/
def save_campaign_data (db : DB) (fault : Bool) (ts : String) (now : Nat)
    (campaign_data : CampaignPayload) : SaveResult :=
  let resolved := save_resolved_payload db fault ts campaign_data
  if (fromisoformat? resolved.generated_at).isNone then ⟨db, false, resolved⟩
  else
    let newRows := save_tweet_rows db fault ts now campaign_data
    if campaignExists db resolved.campaign_batch
        || newRows.any (fun r => tweetExists db r.id)
        || !(listNodup (newRows.map (fun r => r.id))) then
      ⟨db, false, resolved⟩
    else
      ⟨{ db with
           campaigns := db.campaigns
             ++ [save_campaign_row db fault ts now campaign_data],
           tweets := db.tweets ++ newRows },
        true, resolved⟩

/-- One tweet dictionary as returned by `get_campaign_data`. -/
structure TweetOut where
  id : String
  type : String
  content : String
  character_count : Int
  status : String
  engagement_hook : String
  coophive_elements : JValue
  discord_voice_patterns : JValue
  theme_connection : String
  is_edited : Bool
  last_modified : Option Nat
  posted_date : Option Nat
deriving Repr

/-- The campaign dictionary returned by `get_campaign_data`. -/
structure CampaignOut where
  campaign_batch : String
  generated_at : String
  tweet_count : Nat
  analysis_summary : JValue
  title : String
  description : String
  source_type : String
  display_name : String
  tweets : List TweetOut
deriving Repr

/-- `get_campaign_data(campaign_batch)` from `database.py`: loads the
campaign row and every tweet row referencing the batch, and rebuilds the
dictionary with `tweet_count` recomputed as the number of loaded tweet
rows. Python `x or default` on string/JSON columns is modelled on the
values the repository itself stores (strings, possibly empty). Returns
`none` when the campaign is absent or on a storage fault. -/
def get_campaign_data (db : DB) (fault : Bool) (campaign_batch : String) :
    Option CampaignOut :=
  if fault then none
  else
    match db.campaigns.find? (fun c => c.campaign_batch == campaign_batch) with
    | none => none
    | some campaign =>
      let tweets := db.tweets.filter (fun t => t.campaign_batch == campaign_batch)
      some
        { campaign_batch := campaign.campaign_batch,
          generated_at := campaign.generated_at,
          tweet_count := tweets.length,
          analysis_summary :=
            if campaign.analysis_summary.truthy then campaign.analysis_summary
            else JValue.obj [],
          title := campaign.title,
          description := campaign.description,
          source_type :=
            if campaign.source_type == "" then "unknown"
            else campaign.source_type,
          display_name := campaign.display_name,
          tweets := tweets.map (fun t =>
            { id := t.id, type := t.type, content := t.content,
              character_count := t.character_count, status := t.status,
              engagement_hook := t.engagement_hook,
              coophive_elements :=
                if t.coophive_elements.truthy then t.coophive_elements
                else JValue.arr [],
              discord_voice_patterns :=
                if t.discord_voice_patterns.truthy then t.discord_voice_patterns
                else JValue.arr [],
              theme_connection := t.theme_connection,
              is_edited := t.is_edited,
              last_modified := some t.last_modified,
              posted_date := t.posted_date }) }

/-- The row mutation `update_tweet_content` performs on the located ORM
object: new content, recomputed character count, edited flag, fresh
`last_modified`. -/
def contentUpdatedRow (now : Nat) (new_content : String) (t : Tweet) : Tweet :=
  { t with
      content := new_content,
      character_count := (new_content.length : Int),
      is_edited := true, last_modified := now }

/-- The row mutation `update_tweet_status` performs on the located ORM
object: new status and fresh `last_modified`, plus a stamped
`posted_date` exactly when the new status is "Posted". -/
def statusUpdatedRow (now : Nat) (new_status : String) (t : Tweet) : Tweet :=
  let t := { t with status := new_status, last_modified := now }
  if new_status == "Posted" then { t with posted_date := some now } else t

/-- The lookup predicate of both tweet-update operations:
`filter_by(campaign_batch=b, id=tid)`. -/
def tweetMatch (campaign_batch tweet_id : String) (t : Tweet) : Bool :=
  t.campaign_batch == campaign_batch && t.id == tweet_id

/-- Update the first row matching `p` in place (the row `.first()`
returns), leaving all other rows unchanged. -/
def updateFirst (p : Tweet → Bool) (f : Tweet → Tweet) : List Tweet → List Tweet
  | [] => []
  | t :: ts => if p t then f t :: ts else t :: updateFirst p f ts

/-- `update_tweet_content(campaign_batch, tweet_id, new_content)` from
`database.py`: locate by (batch, id); if found overwrite content, set
`character_count = len(new_content)`, set the edited flag, stamp
`last_modified`, commit and return `true`; return `false` when absent or
on a storage fault. -/
def update_tweet_content (db : DB) (fault : Bool) (now : Nat)
    (campaign_batch tweet_id new_content : String) : DB × Bool :=
  if fault then (db, false)
  else
    match db.tweets.find? (tweetMatch campaign_batch tweet_id) with
    | none => (db, false)
    | some _ =>
      ({ db with
          tweets := updateFirst (tweetMatch campaign_batch tweet_id)
            (contentUpdatedRow now new_content) db.tweets }, true)

/-- `update_tweet_status(campaign_batch, tweet_id, new_status)` from
`database.py`: locate by (batch, id); if found overwrite status and stamp
`last_modified`, and additionally stamp `posted_date` exactly when the
new status is the string "Posted"; commit and return `true`; return
`false` when absent or on a storage fault. -/
def update_tweet_status (db : DB) (fault : Bool) (now : Nat)
    (campaign_batch tweet_id new_status : String) : DB × Bool :=
  if fault then (db, false)
  else
    match db.tweets.find? (tweetMatch campaign_batch tweet_id) with
    | none => (db, false)
    | some _ =>
      ({ db with
          tweets := updateFirst (tweetMatch campaign_batch tweet_id)
            (statusUpdatedRow now new_status) db.tweets }, true)

/-- Target schema version (`CURRENT_DB_VERSION` in `database.py`). -/
def CURRENT_DB_VERSION : Int := 3

/-- Row of the singleton `database_version` table (class
`DatabaseVersion`). -/
structure VersionRow where
  version : Int
  migration_notes : String
deriving Repr, DecidableEq

/-- Schema-level view of the store manipulated by the migration runner:
the names of existing tables, whether the `campaigns` table carries the
`display_name` column, and the rows of the `database_version` table. -/
structure MigDB where
  tables : List String
  campaigns_display_name : Bool
  version_rows : List VersionRow
deriving Repr, DecidableEq

/-- `get_database_version()` from `database.py`: 0 when the
`database_version` table is absent or empty, otherwise the first row's
version. -/
def get_database_version (m : MigDB) : Int :=
  if "database_version" ∈ m.tables then
    match m.version_rows.head? with
    | some r => r.version
    | none => 0
  else 0

/-- `set_database_version(version, notes)` from `database.py`: delete all
version rows and insert a single fresh one; the insert raises and rolls
back when the table is absent (`false`). -/
def set_database_version (m : MigDB) (version : Int) (notes : String) :
    MigDB × Bool :=
  if "database_version" ∈ m.tables then
    ({ m with version_rows := [⟨version, notes⟩] }, true)
  else (m, false)

/-- Create a table if absent (`checkfirst` semantics), as a list
insertion. -/
def addTable (ts : List String) (t : String) : List String :=
  if t ∈ ts then ts else ts ++ [t]

/-- `Base.metadata.create_all(engine)`: create every missing table at its
current declared shape; existing tables are left untouched (in particular
a pre-existing `campaigns` table does not gain the `display_name`
column). -/
def create_all (m : MigDB) : MigDB :=
  { m with
      campaigns_display_name :=
        if "campaigns" ∈ m.tables then m.campaigns_display_name else true,
      tables :=
        addTable (addTable (addTable (addTable m.tables "database_version")
          "campaigns") "tweets") "scraped_tweets" }

/-- `migrate_database()` from `database.py`.

If the current version equals the target: no-op, success. If it is 0
(fresh store): create all tables and record the target version. Otherwise
run the incremental steps: below version 2, create the `scraped_tweets`
table if missing and record version 2 (in its own committed session);
below version 3, `ALTER TABLE campaigns ADD COLUMN display_name` —
"duplicate column" is treated as success, but a missing `campaigns` table
re-raises, rolling back the migration session and returning failure —
then record version 3.

`migrate_step2` is the version-2 step and `migrate_incremental` the whole
incremental branch of `migrate_database`. -/
def migrate_step2 (m : MigDB) (current_version : Int) : MigDB :=
  if current_version < 2 then
    (set_database_version
      { m with tables := addTable m.tables "scraped_tweets" }
      2 "Added scraped_tweets table with enhanced duplicate checking").1
  else m

def migrate_incremental (m : MigDB) (current_version : Int) : MigDB × Bool :=
  let m₁ := migrate_step2 m current_version
  if current_version < 3 then
    if "campaigns" ∈ m₁.tables then
      ((set_database_version { m₁ with campaigns_display_name := true }
          3 "Added display_name column to campaigns for human-readable names").1,
        true)
    else (m₁, false)
  else (m₁, true)

def migrate_database (m : MigDB) : MigDB × Bool :=
  let current_version := get_database_version m
  if current_version = CURRENT_DB_VERSION then (m, true)
  else if current_version = 0 then
    ((set_database_version (create_all m) CURRENT_DB_VERSION
        "Initial database creation").1, true)
  else migrate_incremental m current_version

theorem mem_addTable (ts : List String) (t x : String) :
    x ∈ addTable ts t ↔ x ∈ ts ∨ x = t := by
  unfold addTable
  by_cases h : t ∈ ts
  · simp only [h, if_true]
    constructor
    · exact Or.inl
    · rintro (hx | rfl)
      · exact hx
      · exact h
  · simp [h]

theorem tables_set_database_version (m : MigDB) (v : Int) (n : String) :
    (set_database_version m v n).1.tables = m.tables := by
  unfold set_database_version
  by_cases h : "database_version" ∈ m.tables <;> simp [h]

theorem get_version_after_set (m : MigDB) (v : Int) (n : String)
    (h : "database_version" ∈ m.tables) :
    get_database_version (set_database_version m v n).1 = v := by
  simp [set_database_version, get_database_version, h]

theorem dv_mem_of_version_ne_zero (m : MigDB)
    (h : get_database_version m ≠ 0) : "database_version" ∈ m.tables := by
  by_contra hc
  exact h (by simp [get_database_version, hc])

theorem migrate_noop_aux (m : MigDB)
    (h : get_database_version m = CURRENT_DB_VERSION) :
    migrate_database m = (m, true) := by
  unfold migrate_database
  simp [h]

theorem migrate_step2_dv (m : MigDB) (c : Int)
    (hdv : "database_version" ∈ m.tables) :
    "database_version" ∈ (migrate_step2 m c).tables := by
  unfold migrate_step2
  by_cases h2 : c < 2
  · simp only [h2, if_true]
    rw [tables_set_database_version]
    exact (mem_addTable _ _ _).mpr (Or.inl hdv)
  · simpa [h2] using hdv

theorem migrate_step2_version (m : MigDB) (c : Int)
    (hdv : "database_version" ∈ m.tables)
    (hc : get_database_version m = c) (h2 : c < 2 ∨ c = 2) :
    get_database_version (migrate_step2 m c) = 2 := by
  unfold migrate_step2
  rcases h2 with h2 | h2
  · simp only [h2, if_true]
    exact get_version_after_set _ _ _ ((mem_addTable _ _ _).mpr (Or.inl hdv))
  · have : ¬(c < 2) := by omega
    simp only [this, if_false]
    rw [hc, h2]

/-- C6: the migration routine is idempotent — running it twice in a row
leaves exactly the store state one run produces (hence the same recorded
version and table set) — and when the current version already equals the
target it is a no-op returning success. -/
theorem migrate_database_idempotent :
    (∀ m : MigDB,
        (migrate_database (migrate_database m).1).1 = (migrate_database m).1)
    ∧ (∀ m : MigDB, get_database_version m = CURRENT_DB_VERSION →
        migrate_database m = (m, true)) := by
  refine ⟨?_, migrate_noop_aux⟩
  intro m
  by_cases h3 : get_database_version m = CURRENT_DB_VERSION
  · rw [migrate_noop_aux m h3, migrate_noop_aux m h3]
  · by_cases h0 : get_database_version m = 0
    · have hmem : "database_version" ∈ (create_all m).tables := by
        simp [create_all, mem_addTable]
      have h1 : migrate_database m
          = ((set_database_version (create_all m) CURRENT_DB_VERSION
              "Initial database creation").1, true) := by
        unfold migrate_database
        simp [h3, h0, CURRENT_DB_VERSION]
      have hv : get_database_version (migrate_database m).1
          = CURRENT_DB_VERSION := by
        rw [h1]
        exact get_version_after_set _ _ _ hmem
      rw [migrate_noop_aux _ hv]
    · have hdv : "database_version" ∈ m.tables := dv_mem_of_version_ne_zero m h0
      have hinc : migrate_database m
          = migrate_incremental m (get_database_version m) := by
        unfold migrate_database
        simp [h3, h0]
      by_cases hlt3 : get_database_version m < 3
      · have hdv₁ : "database_version" ∈ (migrate_step2 m (get_database_version m)).tables :=
          migrate_step2_dv m _ hdv
        have hv₁ : get_database_version (migrate_step2 m (get_database_version m)) = 2 := by
          apply migrate_step2_version m _ hdv rfl
          have h3i : get_database_version m ≠ CURRENT_DB_VERSION := h3
          unfold CURRENT_DB_VERSION at h3i
          omega
        by_cases hcamp : "campaigns" ∈ (migrate_step2 m (get_database_version m)).tables
        · have h1 : migrate_database m
              = ((set_database_version
                  { migrate_step2 m (get_database_version m) with
                      campaigns_display_name := true }
                  3 "Added display_name column to campaigns for human-readable names").1,
                true) := by
            rw [hinc]
            unfold migrate_incremental
            simp [hlt3, hcamp]
          have hv : get_database_version (migrate_database m).1
              = CURRENT_DB_VERSION := by
            rw [h1]
            exact get_version_after_set _ _ _ hdv₁
          rw [migrate_noop_aux _ hv]
        · have h1 : migrate_database m
              = (migrate_step2 m (get_database_version m), false) := by
            rw [hinc]
            unfold migrate_incremental
            simp [hlt3, hcamp]
          rw [h1]
          have h1b : migrate_database (migrate_step2 m (get_database_version m))
              = (migrate_step2 m (get_database_version m), false) := by
            unfold migrate_database
            rw [hv₁]
            have e3 : (2 : Int) ≠ CURRENT_DB_VERSION := by
              unfold CURRENT_DB_VERSION
              omega
            simp only [e3, if_false]
            have e0 : (2 : Int) ≠ 0 := by omega
            simp only [e0, if_false]
            unfold migrate_incremental
            have hstep : migrate_step2 (migrate_step2 m (get_database_version m)) 2
                = migrate_step2 m (get_database_version m) := by
              unfold migrate_step2
              norm_num
            simp [hstep, hcamp]
          rw [h1b]
      · have h1 : migrate_database m = (m, true) := by
          rw [hinc]
          unfold migrate_incremental migrate_step2
          have h2 : ¬(get_database_version m < 2) := by omega
          simp [hlt3, h2]
        rw [h1, h1]

/-- Witness for the no-op clause of the idempotence theorem at a concrete
store already at the target version. -/
theorem migrate_database_idempotent_witness :
    get_database_version ⟨["database_version"], true, [⟨3, "init"⟩]⟩
        = CURRENT_DB_VERSION
      ∧ migrate_database ⟨["database_version"], true, [⟨3, "init"⟩]⟩
        = (⟨["database_version"], true, [⟨3, "init"⟩]⟩, true) :=
  ⟨by decide, migrate_database_idempotent.2 _ (by decide)⟩

/-- A minimal payload tweet with the given id. -/
def payloadTweet (tid : String) : TweetData :=
  { id := tid, type := "single", content := "hello world",
    character_count := 11, status := none, engagement_hook := none,
    coophive_elements := none, discord_voice_patterns := none,
    theme_connection := none, is_edited := none }

/-- A minimal campaign payload with the given batch id and tweet ids. -/
def payloadFor (batch : String) (tids : List String) : CampaignPayload :=
  { campaign_batch := batch, generated_at := "2025-01-15T10:00:00",
    tweet_count := tids.length, analysis_summary := none, title := none,
    description := none, source_type := none, tweets := tids.map payloadTweet }

/-- The first save of the C2 scenario: `batch-001` with `t1`,`t2` into an
empty store. -/
def saveScenario1 : SaveResult :=
  save_campaign_data ⟨[], [], []⟩ false "120000" 100
    (payloadFor "batch-001" ["t1", "t2"])

/-- The second save of the C2 scenario: `batch-001` again, now with
`t1`,`t3`. -/
def saveScenario2 : SaveResult :=
  save_campaign_data saveScenario1.db false "120001" 200
    (payloadFor "batch-001" ["t1", "t3"])

/-- C2: after storing campaign `batch-001` with tweets `t1`,`t2`, saving
again under batch id `batch-001` with tweets `t1`,`t3` succeeds and
stores the new campaign as `batch-001-v2`, with `t1` resolved to `t1-v2`
(the tweet-id collision check is global across all tweets) and `t3`
stored unchanged. -/
theorem save_campaign_collision_scenario :
    saveScenario1.ok = true
      ∧ saveScenario2.ok = true
      ∧ saveScenario2.data.campaign_batch = "batch-001-v2"
      ∧ saveScenario2.data.tweets.map TweetData.id = ["t1-v2", "t3"]
      ∧ saveScenario2.db.campaigns.map Campaign.campaign_batch
          = ["batch-001", "batch-001-v2"]
      ∧ saveScenario2.db.tweets.map Tweet.id = ["t1", "t2", "t1-v2", "t3"]
      ∧ saveScenario2.db.tweets.map Tweet.campaign_batch
          = ["batch-001", "batch-001", "batch-001-v2", "batch-001-v2"] := by
  decide

/-- Referential well-formedness that the repository's own operations
maintain: every tweet row's `campaign_batch` references a stored
campaign row. -/
def RefInvariant (db : DB) : Prop :=
  ∀ t ∈ db.tweets, ∃ c ∈ db.campaigns, c.campaign_batch = t.campaign_batch

theorem save_tweet_rows_length (db : DB) (fault : Bool) (ts : String)
    (now : Nat) (cd : CampaignPayload) :
    (save_tweet_rows db fault ts now cd).length = cd.tweets.length := by
  simp [save_tweet_rows, save_resolved_payload]

theorem save_tweet_rows_batch (db : DB) (fault : Bool) (ts : String)
    (now : Nat) (cd : CampaignPayload) :
    ∀ r ∈ save_tweet_rows db fault ts now cd,
      r.campaign_batch = (save_resolved_payload db fault ts cd).campaign_batch := by
  intro r hr
  simp only [save_tweet_rows, List.mem_map] at hr
  obtain ⟨t, _, rfl⟩ := hr
  rfl

theorem save_campaign_row_batch (db : DB) (fault : Bool) (ts : String)
    (now : Nat) (cd : CampaignPayload) :
    (save_campaign_row db fault ts now cd).campaign_batch
      = (save_resolved_payload db fault ts cd).campaign_batch := rfl

/-- What a successful save did: the resolved batch was fresh, the store
gained exactly the campaign row and the tweet rows, and the mutated
payload is returned. -/
theorem save_ok_spec (db : DB) (ts : String) (now : Nat)
    (cd : CampaignPayload)
    (hok : (save_campaign_data db false ts now cd).ok = true) :
    campaignExists db (save_resolved_payload db false ts cd).campaign_batch = false
      ∧ (save_campaign_data db false ts now cd).db.campaigns
          = db.campaigns ++ [save_campaign_row db false ts now cd]
      ∧ (save_campaign_data db false ts now cd).db.tweets
          = db.tweets ++ save_tweet_rows db false ts now cd
      ∧ (save_campaign_data db false ts now cd).data
          = save_resolved_payload db false ts cd := by
  simp only [save_campaign_data] at hok ⊢
  by_cases hiso : (fromisoformat? (save_resolved_payload db false ts cd).generated_at).isNone = true
  · rw [if_pos hiso] at hok
    simp at hok
  · rw [if_neg hiso] at hok ⊢
    by_cases hcond : (campaignExists db (save_resolved_payload db false ts cd).campaign_batch
        || (save_tweet_rows db false ts now cd).any (fun r => tweetExists db r.id)
        || !(listNodup ((save_tweet_rows db false ts now cd).map (fun r => r.id)))) = true
    · rw [if_pos hcond] at hok
      simp at hok
    · rw [if_neg hcond] at hok ⊢
      simp only [Bool.or_eq_true, not_or, Bool.not_eq_true] at hcond
      exact ⟨hcond.1.1, rfl, rfl, rfl⟩

/-- A successful save keeps the store well-formed: the new tweet rows all
reference the newly inserted campaign row, and the old rows keep their
referents — so `RefInvariant` holds of every store the repository builds
up from an empty one. -/
theorem save_ok_preserves_RefInvariant (db : DB) (ts : String) (now : Nat)
    (cd : CampaignPayload) (hinv : RefInvariant db)
    (hok : (save_campaign_data db false ts now cd).ok = true) :
    RefInvariant (save_campaign_data db false ts now cd).db := by
  obtain ⟨hfresh, hcamps, htweets, hdata⟩ := save_ok_spec db ts now cd hok
  intro t ht
  rw [htweets] at ht
  rw [hcamps]
  rcases List.mem_append.mp ht with h | h
  · obtain ⟨c, hc, hcb⟩ := hinv t h
    exact ⟨c, List.mem_append.mpr (Or.inl hc), hcb⟩
  · refine ⟨save_campaign_row db false ts now cd,
      List.mem_append.mpr (Or.inr (List.mem_singleton_self _)), ?_⟩
    rw [save_campaign_row_batch, save_tweet_rows_batch db false ts now cd t h]

/-- C3: for a well-formed store, a successful `save_campaign` followed by
`get_campaign` on the (resolved, in-place-mutated) batch id returns a
campaign whose `tweet_count` equals the number of tweets in the payload,
whatever `tweet_count` the payload declared: the stored hint is
recomputed from the loaded tweet rows at read time. -/
theorem save_then_get_tweet_count (db : DB) (ts : String) (now : Nat)
    (cd : CampaignPayload) (hinv : RefInvariant db)
    (hok : (save_campaign_data db false ts now cd).ok = true) :
    ∃ out : CampaignOut,
      get_campaign_data (save_campaign_data db false ts now cd).db false
          (save_campaign_data db false ts now cd).data.campaign_batch
        = some out
      ∧ out.tweet_count = cd.tweets.length := by
  obtain ⟨hfresh, hcamps, htweets, hdata⟩ := save_ok_spec db ts now cd hok
  rw [hdata]
  unfold get_campaign_data
  simp only [Bool.false_eq_true, if_false]
  rw [hcamps, htweets]
  have hfind₁ : db.campaigns.find?
      (fun c => c.campaign_batch == (save_resolved_payload db false ts cd).campaign_batch)
        = none := by
    rw [List.find?_eq_none]
    intro c hc hbeq
    have : campaignExists db (save_resolved_payload db false ts cd).campaign_batch = true := by
      unfold campaignExists
      rw [List.any_eq_true]
      exact ⟨c, hc, hbeq⟩
    rw [hfresh] at this
    exact Bool.false_ne_true this
  rw [List.find?_append, hfind₁, Option.none_or]
  have hfind₂ : [save_campaign_row db false ts now cd].find?
      (fun c => c.campaign_batch == (save_resolved_payload db false ts cd).campaign_batch)
        = some (save_campaign_row db false ts now cd) := by
    rw [List.find?_cons_of_pos]
    rw [save_campaign_row_batch]
    exact beq_self_eq_true _
  rw [hfind₂]
  have hfilter₁ : db.tweets.filter
      (fun t => t.campaign_batch == (save_resolved_payload db false ts cd).campaign_batch)
        = [] := by
    rw [List.filter_eq_nil_iff]
    intro t ht hbeq
    obtain ⟨c, hc, hcb⟩ := hinv t ht
    have hb : t.campaign_batch = (save_resolved_payload db false ts cd).campaign_batch :=
      by simpa using hbeq
    have : campaignExists db (save_resolved_payload db false ts cd).campaign_batch = true := by
      unfold campaignExists
      rw [List.any_eq_true]
      refine ⟨c, hc, ?_⟩
      rw [hcb, hb]
      exact beq_self_eq_true _
    rw [hfresh] at this
    exact Bool.false_ne_true this
  have hfilter₂ : (save_tweet_rows db false ts now cd).filter
      (fun t => t.campaign_batch == (save_resolved_payload db false ts cd).campaign_batch)
        = save_tweet_rows db false ts now cd := by
    rw [List.filter_eq_self]
    intro r hr
    rw [save_tweet_rows_batch db false ts now cd r hr]
    exact beq_self_eq_true _
  rw [List.filter_append, hfilter₁, hfilter₂, List.nil_append]
  refine ⟨_, rfl, ?_⟩
  exact save_tweet_rows_length db false ts now cd

/-- Witness for the C3 theorem at the concrete first save of the C2
scenario store. -/
theorem save_then_get_tweet_count_witness :
    ∃ out : CampaignOut,
      get_campaign_data saveScenario1.db false
          saveScenario1.data.campaign_batch
        = some out
      ∧ out.tweet_count = 2 :=
  save_then_get_tweet_count ⟨[], [], []⟩ "120000" 100
    (payloadFor "batch-001" ["t1", "t2"])
    (by intro t ht; simp at ht) (by decide)

theorem find?_updateFirst (p : Tweet → Bool) (f : Tweet → Tweet)
    (hpf : ∀ t, p t = true → p (f t) = true) (l : List Tweet) :
    (updateFirst p f l).find? p = (l.find? p).map f := by
  induction l with
  | nil => rfl
  | cons t ts ih =>
    by_cases hp : p t = true
    · unfold updateFirst
      rw [if_pos hp, List.find?_cons_of_pos _ (hpf t hp),
        List.find?_cons_of_pos _ hp]
      rfl
    · unfold updateFirst
      rw [if_neg hp, List.find?_cons_of_neg _ hp, List.find?_cons_of_neg _ hp,
        ih]

theorem tweetMatch_contentUpdatedRow (b tid : String) (now : Nat)
    (s : String) (t : Tweet) (ht : tweetMatch b tid t = true) :
    tweetMatch b tid (contentUpdatedRow now s t) = true := ht

theorem tweetMatch_statusUpdatedRow (b tid : String) (now : Nat)
    (ns : String) (t : Tweet) (ht : tweetMatch b tid t = true) :
    tweetMatch b tid (statusUpdatedRow now ns t) = true := by
  unfold statusUpdatedRow
  by_cases h : (ns == "Posted") = true
  · rw [if_pos h]
    exact ht
  · rw [if_neg h]
    exact ht

theorem statusUpdatedRow_status (now : Nat) (ns : String) (t : Tweet) :
    (statusUpdatedRow now ns t).status = ns := by
  unfold statusUpdatedRow
  by_cases h : (ns == "Posted") = true
  · rw [if_pos h]
  · rw [if_neg h]

theorem statusUpdatedRow_last_modified (now : Nat) (ns : String) (t : Tweet) :
    (statusUpdatedRow now ns t).last_modified = now := by
  unfold statusUpdatedRow
  by_cases h : (ns == "Posted") = true
  · rw [if_pos h]
  · rw [if_neg h]

theorem statusUpdatedRow_posted (now : Nat) (ns : String) (t : Tweet)
    (h : ns = "Posted") :
    (statusUpdatedRow now ns t).posted_date = some now := by
  unfold statusUpdatedRow
  rw [if_pos (by simp [h])]

theorem statusUpdatedRow_not_posted (now : Nat) (ns : String) (t : Tweet)
    (h : ns ≠ "Posted") :
    (statusUpdatedRow now ns t).posted_date = t.posted_date := by
  unfold statusUpdatedRow
  rw [if_neg (by simp [h])]

/-- C4: after a successful `update_tweet_content(b, t, s)`, the tweet
located by (batch, id) holds the new content with `character_count`
equal to its length, the edited flag set, and `last_modified` stamped
with the update time. -/
theorem update_content_consistency (db : DB) (now : Nat) (b tid s : String)
    (hok : (update_tweet_content db false now b tid s).2 = true) :
    ∃ t : Tweet,
      (update_tweet_content db false now b tid s).1.tweets.find?
          (tweetMatch b tid) = some t
        ∧ t.content = s
        ∧ t.character_count = (s.length : Int)
        ∧ t.is_edited = true
        ∧ t.last_modified = now := by
  unfold update_tweet_content at hok ⊢
  simp only [Bool.false_eq_true, if_false] at hok ⊢
  cases hfind : db.tweets.find? (tweetMatch b tid) with
  | none =>
    rw [hfind] at hok
    exact absurd hok (by simp)
  | some t₀ =>
    have hf := find?_updateFirst (tweetMatch b tid)
      (contentUpdatedRow now s) (tweetMatch_contentUpdatedRow b tid now s)
      db.tweets
    rw [hfind] at hf
    exact ⟨contentUpdatedRow now s t₀, hf, rfl, rfl, rfl, rfl⟩

/-- Witness for the C4 theorem: updating tweet `t1` of `batch-001` to
"hello" yields `character_count = 5` and `is_edited = true`. -/
theorem update_content_consistency_witness :
    ∃ t : Tweet,
      (update_tweet_content dbC1 false 7 "batch-001" "t1" "hello").1.tweets.find?
          (tweetMatch "batch-001" "t1") = some t
        ∧ t.character_count = (5 : Int)
        ∧ t.is_edited = true := by
  obtain ⟨t, h1, _, h3, h4, _⟩ :=
    update_content_consistency dbC1 7 "batch-001" "t1" "hello" (by decide)
  refine ⟨t, h1, ?_, h4⟩
  rw [h3]
  decide

/-- C5: after a successful `update_tweet_status(b, t, ns)`, the located
tweet carries status `ns` and a fresh `last_modified`; when
`ns = "Posted"` a non-null posted timestamp is stamped, and for any other
status the posted timestamp is exactly what it was before — never
cleared. -/
theorem update_status_posted_date (db : DB) (now : Nat) (b tid ns : String)
    (hok : (update_tweet_status db false now b tid ns).2 = true) :
    ∃ t₀ t : Tweet,
      db.tweets.find? (tweetMatch b tid) = some t₀
        ∧ (update_tweet_status db false now b tid ns).1.tweets.find?
            (tweetMatch b tid) = some t
        ∧ t.status = ns
        ∧ t.last_modified = now
        ∧ (ns = "Posted" → t.posted_date = some now)
        ∧ (ns ≠ "Posted" → t.posted_date = t₀.posted_date) := by
  unfold update_tweet_status at hok ⊢
  simp only [Bool.false_eq_true, if_false] at hok ⊢
  cases hfind : db.tweets.find? (tweetMatch b tid) with
  | none =>
    rw [hfind] at hok
    exact absurd hok (by simp)
  | some t₀ =>
    have hf := find?_updateFirst (tweetMatch b tid)
      (statusUpdatedRow now ns) (tweetMatch_statusUpdatedRow b tid now ns)
      db.tweets
    rw [hfind] at hf
    exact ⟨t₀, statusUpdatedRow now ns t₀, rfl, hf,
      statusUpdatedRow_status now ns t₀,
      statusUpdatedRow_last_modified now ns t₀,
      fun h => statusUpdatedRow_posted now ns t₀ h,
      fun h => statusUpdatedRow_not_posted now ns t₀ h⟩

/-- Witness for the C5 theorem at status "Draft" on a tweet that already
carries a posted timestamp: the timestamp survives. -/
theorem update_status_posted_date_witness :
    ∃ t₀ t : Tweet,
      (dbC1post.tweets.find? (tweetMatch "batch-001" "t1") = some t₀)
        ∧ (update_tweet_status dbC1post false 9 "batch-001" "t1" "Draft").1.tweets.find?
            (tweetMatch "batch-001" "t1") = some t
        ∧ t.status = "Draft"
        ∧ t.posted_date = t₀.posted_date := by
  obtain ⟨t₀, t, h0, h1, h2, _, _, h5⟩ :=
    update_status_posted_date dbC1post 9 "batch-001" "t1" "Draft" (by decide)
  exact ⟨t₀, t, h0, h1, h2, h5 (by decide)⟩

/-- C8: the display-name generator never escapes with an exception. With
a summary whose dominant-themes entry reads back falsy it returns the
generic "Content Batch" label (dated when the generation timestamp
parses); whenever its body would raise — e.g. the malformed non-dict
summary in the last conjuncts — the bare tweet-count fallback label is
returned instead. -/
theorem generate_display_name_total :
    (∀ cd : CampaignPayload,
        (∃ dt, pyGet (cd.analysis_summary.getD (JValue.obj []))
              "dominant_themes" (JValue.arr []) = Except.ok dt
            ∧ dt.truthy = false) →
        generate_display_name cd
          = if campaignDateStr cd != "" then
              "Content Batch - " ++ campaignDateStr cd ++ " ("
                ++ toString cd.tweets.length ++ " tweets)"
            else "Content Batch (" ++ toString cd.tweets.length ++ " tweets)")
      ∧ (∀ cd : CampaignPayload, displayNameCore cd = Except.error () →
          generate_display_name cd
            = "Campaign (" ++ toString cd.tweets.length ++ " tweets)")
      ∧ displayNameCore { payloadFor "b" [] with
            analysis_summary := some (JValue.num 5) } = Except.error ()
      ∧ generate_display_name { payloadFor "b" [] with
            analysis_summary := some (JValue.num 5) } = "Campaign (0 tweets)" := by
  refine ⟨?_, ?_, rfl, rfl⟩
  · rintro cd ⟨dt, hget, ht⟩
    unfold generate_display_name displayNameCore
    rw [hget]
    simp [ht]
  · intro cd hcore
    unfold generate_display_name
    rw [hcore]

/-- Witness for the C8 theorem: the generic label on an empty-summary
payload and the bare fallback on a malformed one. -/
theorem generate_display_name_total_witness :
    generate_display_name (payloadFor "b" [])
        = "Content Batch - Jan 15 (0 tweets)"
      ∧ generate_display_name { payloadFor "b" [] with
            analysis_summary := some (JValue.num 5) } = "Campaign (0 tweets)" := by
  constructor
  · have h := generate_display_name_total.1 (payloadFor "b" [])
      ⟨JValue.arr [], rfl, rfl⟩
    rw [h]
    decide
  · have h := generate_display_name_total.2.1
      { payloadFor "b" [] with analysis_summary := some (JValue.num 5) } rfl
    rw [h]
    decide

end XBot
